import Mathlib

/-!
Shallow embedding of the OCR document-classification pipeline of
`ginthi_agents/ocr_service` (files `services/ocr_service_v2.py` and
`core/image_processor.py`).

Modelling conventions:
* Python floats are idealised as exact rationals (`ℚ`); `np.pi` is embedded
  as the decimal value of the double constant.
* External collaborators (the recognition engine, the Canny /
  Laplacian / contour extraction) are modelled by their outputs, carried in
  environment records: a `RasterImage` carries the toolkit measurements for
  that image, a `TessOutput` carries the text of one engine invocation and
  per-token confidence strings, and `Option TessOutput` models an engine
  invocation that may raise (`none` = the call raised and was caught).
* Fallible pipeline stages are explicit: `PdfEnv.textLayer = none` models the
  embedded-text extraction raising, `PdfEnv.rasterOk = false` models the
  rasterisation stage raising, an empty page list makes the first-page signal
  sampling raise (`doc.load_page(0)` on an empty document).
* `ExtractOutput.ranEnhanced` is a ghost observation recording whether the
  enhanced-pass branch was entered; it mirrors the control flow exactly and
  is dropped by `process_from_url`.
-/

/-- One extracted contour, as returned by the image toolkit:
`perimeter` is `cv2.arcLength(c, True)`, `area` is `cv2.contourArea(c)`. -/
structure Contour where
  perimeter : ℚ
  area : ℚ
deriving DecidableEq, Repr

/-- A raster image together with the toolkit measurements taken on it:
`edgePixels` is the number of edge-classified pixels of the Canny map
(`np.sum(edges > 0)`), `lapVar` is the Laplacian variance, `contours` the
external contours extracted from the Canny map. -/
structure RasterImage where
  height : Nat
  width : Nat
  edgePixels : Nat
  lapVar : ℚ
  contours : List Contour
deriving DecidableEq, Repr

/-- Output of one recognition-engine invocation: `text` is
`pytesseract.image_to_string(...)` (raw, untrimmed) and `conf` the entries of
`pytesseract.image_to_data(...)["conf"]`, each rendered by `str(...)`. -/
structure TessOutput where
  text : String
  conf : List String
deriving DecidableEq, Repr

/-- Python `str.strip()` (both-end whitespace removal), implemented
structurally over the character list so that it evaluates by reduction. -/
def py_strip (s : String) : String :=
  ⟨((s.data.dropWhile Char.isWhitespace).reverse.dropWhile Char.isWhitespace).reverse⟩

/-- Python `str.lower()`. -/
def py_lower (s : String) : String := ⟨s.data.map Char.toLower⟩

/-- Python `str.endswith(suffix)`. -/
def py_endswith (s suffix : String) : Bool := suffix.data.isSuffixOf s.data

/-- The double constant `np.pi`, idealised as its decimal rendering. -/
def np_pi : ℚ := 3.141592653589793

/-- The literal `1e-6` added to the squared perimeter in
`analyze_contour_irregularity`. -/
def eps6 : ℚ := 1 / 1000000

/-- Arithmetic mean of a list of rationals (`np.mean`); callers in the source
always guard against the empty list, for which this returns `0`. -/
def mean_q (xs : List ℚ) : ℚ := xs.sum / xs.length

/-- Python `str.isdigit` restricted to ASCII decimal strings: nonempty and
all characters are decimal digits (so `"-1"` and `""` are rejected). -/
def isdigitStr (s : String) : Bool := s.length != 0 && s.toList.all Char.isDigit

/-- Python `int(...)` on an all-digit string. -/
def digitsToNat (s : String) : Nat :=
  s.toList.foldl (fun n c => 10 * n + (c.toNat - 48)) 0

/-- The token-confidence filter
`[int(conf) for conf in data["conf"] if str(conf).isdigit() and int(conf) > 0]`. -/
def usable_confs (conf : List String) : List Nat :=
  (conf.filter (fun s => isdigitStr s && digitsToNat s > 0)).map digitsToNat

/-- `np.mean(confs) if confs else 0.0` applied to the filtered token
confidences of one recognition pass. -/
def pass_conf (conf : List String) : ℚ :=
  let cs := usable_confs conf
  if cs.isEmpty then 0 else mean_q (cs.map (fun n => (n : ℚ)))

/-- `edge_density = np.sum(edges > 0) / (edges.shape[0] * edges.shape[1])`
from `detect_handwriting_texture`. -/
def edge_density (img : RasterImage) : ℚ :=
  (img.edgePixels : ℚ) / ((img.height : ℚ) * (img.width : ℚ))

/-- `detect_handwriting_texture` from `core/image_processor.py`:
`edge_density > 0.08 or lap_var > 250` with thresholds `edge_threshold = 0.08`
and `texture_threshold = 250`. -/
def detect_handwriting_texture (img : RasterImage) : Bool :=
  edge_density img > 8 / 100 || img.lapVar > 250

/-- `OCRService.analyze_contour_irregularity`: early `0.0` when no contours;
otherwise for each contour of area `> 10` append
`|1 - (4*np.pi*area) / (perimeter**2 + 1e-6)|`, then mean, or `0.0` when no
contour qualified. -/
def analyze_contour_irregularity (img : RasterImage) : ℚ :=
  if img.contours.isEmpty then 0
  else
    let irregularities := img.contours.filterMap (fun c =>
      if c.area > 10 then
        some |1 - (4 * np_pi * c.area) / (c.perimeter ^ 2 + eps6)|
      else none)
    if irregularities.isEmpty then 0 else mean_q irregularities

/-- `OCRService.enhanced_handwritten_ocr`: the whole body is wrapped in
`try/except` returning `("", 0.0)` on any failure (`run = none`); otherwise
the recognised text is stripped and the confidence is the guarded mean of the
filtered token confidences. -/
def enhanced_handwritten_ocr (run : Option TessOutput) : String × ℚ :=
  match run with
  | none => ("", 0)
  | some o => (py_strip o.text, pass_conf o.conf)

/-- The PDF-family label chain of `extract_text_from_pdf` (lines 155-163). -/
def classify_pdf (avg_conf : ℚ) (texture_detected : Bool) (contour_score : ℚ) : String :=
  if avg_conf ≥ 80 then "image_pdf"
  else if 60 ≤ avg_conf ∧ avg_conf < 80 then
    if ¬(texture_detected = true ∨ contour_score > 3 / 10) then "image_pdf"
    else "mixed_image_pdf"
  else if 40 ≤ avg_conf ∧ avg_conf < 60 then
    if texture_detected = true ∨ contour_score > 3 / 10 then "low_quality_image_pdf"
    else "low_quality_printed_pdf"
  else "handwritten_pdf"

/-- The image-family label chain of `extract_text_from_image` (lines 194-202),
including the literal `"low_quality_image_"` with trailing underscore. -/
def classify_image (avg_conf : ℚ) (texture_detected : Bool) (contour_score : ℚ) : String :=
  if avg_conf ≥ 80 then "printed_image"
  else if 60 ≤ avg_conf ∧ avg_conf < 80 then
    if ¬(texture_detected = true ∨ contour_score > 3 / 10) then "printed_image"
    else "image_pdf"
  else if 40 ≤ avg_conf ∧ avg_conf < 60 then
    if texture_detected = true ∨ contour_score > 3 / 10 then "low_quality_image_"
    else "low_quality_image"
  else "handwritten_image"

/-- Engine outputs for one image-branch invocation: the standard pass on the
preprocessed image, and the outcome of the enhanced pass on the raw image
(`none` = the enhanced engine call raised). -/
structure ImageOcrEnv where
  standard : TessOutput
  enhancedRun : Option TessOutput
deriving DecidableEq, Repr

/-- Result of one extraction: the `(text, confidence, label)` triple returned
by the source, plus the ghost flag `ranEnhanced` recording whether the
enhanced-pass branch was entered. -/
structure ExtractOutput where
  text : String
  conf : ℚ
  label : String
  ranEnhanced : Bool
deriving DecidableEq, Repr

/-- `OCRService.extract_text_from_image`. -/
def extract_text_from_image (img : RasterImage) (env : ImageOcrEnv) : ExtractOutput :=
  let text := py_strip env.standard.text
  let avg_conf := pass_conf env.standard.conf
  let texture_detected := detect_handwriting_texture img
  let contour_score := analyze_contour_irregularity img
  if avg_conf < 60 ∨ texture_detected = true then
    let (extra_text, extra_conf) := enhanced_handwritten_ocr env.enhancedRun
    if extra_text ≠ "" then
      let text := text ++ "\n" ++ extra_text
      let avg_conf := (avg_conf + extra_conf) / 2
      ⟨text, avg_conf, classify_image avg_conf texture_detected contour_score, true⟩
    else ⟨text, avg_conf, classify_image avg_conf texture_detected contour_score, true⟩
  else ⟨text, avg_conf, classify_image avg_conf texture_detected contour_score, false⟩

/-- Environment of one `extract_text_from_pdf` invocation.
`textLayer` is the list of `page.extract_text() or ""` results from the
embedded-text reader (`none` = that stage raised); `rasterOk = false` models
the rasterisation stage raising; `pages` pairs the toolkit measurements of each rasterised page
with the standard recognition pass on its preprocessed image;
`enhancedRun` is the outcome of the conditional enhanced pass on the raw
first-page render. -/
structure PdfEnv where
  textLayer : Option (List String)
  rasterOk : Bool
  pages : List (RasterImage × TessOutput)
  enhancedRun : Option TessOutput
deriving DecidableEq, Repr

/-- The per-page document confidence accumulator of `extract_text_from_pdf`:
the mean of a page is appended only when it has at least one usable token
(`if page_conf: confidences.append(np.mean(page_conf))`). -/
def pdf_page_confidences (pages : List (RasterImage × TessOutput)) : List ℚ :=
  pages.filterMap (fun p =>
    let pc := usable_confs p.2.conf
    if pc.isEmpty then none else some (mean_q (pc.map (fun n => (n : ℚ)))))

/-- `avg_conf = np.mean(confidences) if confidences else 0.0`: the document
confidence before any enhanced-pass refinement. -/
def pdf_pre_enhancement_conf (pages : List (RasterImage × TessOutput)) : ℚ :=
  let cs := pdf_page_confidences pages
  if cs.isEmpty then 0 else mean_q cs

/-- The sentinel returned by the exception handler of `extract_text_from_pdf`. -/
def pdf_error_result : ExtractOutput :=
  ⟨"(Error extracting text)", 0, "error_pdf", false⟩

/-- `OCRService.extract_text_from_pdf`.  The direct text layer wins outright
when its stripped length exceeds 50 characters; otherwise the raster pipeline
runs, structural signals are sampled from the first page, the enhanced pass
runs conditionally, and the label chain classifies.  Any raise inside the
`try` body (text-layer stage, raster stage, or first-page sampling on an
empty document) yields `pdf_error_result`. -/
def extract_text_from_pdf (env : PdfEnv) : ExtractOutput :=
  match env.textLayer with
  | none => pdf_error_result
  | some pageTexts =>
    let text := py_strip (String.join pageTexts)
    if text.length > 50 then ⟨text, 95, "text_pdf", false⟩
    else if env.rasterOk = false then pdf_error_result
    else
      match env.pages with
      | [] => pdf_error_result
      | first :: _ =>
        let all_text := env.pages.map (fun p => p.2.text)
        let text := py_strip (String.intercalate "\n" all_text)
        let avg_conf := pdf_pre_enhancement_conf env.pages
        let np_img := first.1
        let texture_detected := detect_handwriting_texture np_img
        let contour_score := analyze_contour_irregularity np_img
        if texture_detected = true ∨ avg_conf < 60 ∨ contour_score > 3 / 10 then
          let (extra_text, extra_conf) := enhanced_handwritten_ocr env.enhancedRun
          if extra_text ≠ "" then
            let text := text ++ "\n" ++ extra_text
            let avg_conf := (avg_conf + extra_conf) / 2
            ⟨text, avg_conf, classify_pdf avg_conf texture_detected contour_score, true⟩
          else ⟨text, avg_conf, classify_pdf avg_conf texture_detected contour_score, true⟩
        else ⟨text, avg_conf, classify_pdf avg_conf texture_detected contour_score, false⟩

/-- `OCRService.is_pdf_url`. -/
def is_pdf_url (url : String) : Bool := py_endswith (py_lower url) ".pdf"

/-- `round(confidence, 2)`, idealised as exact rounding of the rational to
two decimal places. -/
def round2 (q : ℚ) : ℚ := ((⌊q * 100 + 1 / 2⌋ : ℤ) : ℚ) / 100

/-- The PDF-family response flag `pdf_type in ["handwritten_pdf", "image_pdf"]`. -/
def is_handwritten_pdf_label (label : String) : Bool :=
  label = "handwritten_pdf" || label = "image_pdf"

/-- The image-family response flag
`img_type in ["handwritten_image", "mixed_handwritten_image"]`. -/
def is_handwritten_image_label (label : String) : Bool :=
  label = "handwritten_image" || label = "mixed_handwritten_image"

/-- The success-shaped dictionary returned by `process_from_url`. -/
structure ExtractionResponse where
  url : String
  file_type : String
  confidence : ℚ
  is_handwritten : Bool
  extracted_text : String
deriving DecidableEq, Repr

/-- Result of `process_from_url`: either the `{"error": msg}` dictionary of
the outer `except` handler, or a success-shaped response. -/
inductive ProcessResult where
  | err (msg : String)
  | ok (r : ExtractionResponse)
deriving DecidableEq, Repr

/-- Environment of one `process_from_url` invocation. `fetch = some msg`
models the download raising with message `msg`; `imageDecode = none` models
`cv2.imdecode` returning `None` on the image branch (so the `ValueError` is
caught by the outer handler). -/
structure UrlRunEnv where
  fetch : Option String
  pdfEnv : PdfEnv
  imageDecode : Option (RasterImage × ImageOcrEnv)
deriving Repr

/-- `OCRService.process_from_url`. -/
def process_from_url (url : String) (env : UrlRunEnv) : ProcessResult :=
  match env.fetch with
  | some msg => .err msg
  | none =>
    if is_pdf_url url then
      let r := extract_text_from_pdf env.pdfEnv
      .ok ⟨url, r.label, round2 r.conf, is_handwritten_pdf_label r.label,
           if r.text ≠ "" then r.text else "(No text found)"⟩
    else
      match env.imageDecode with
      | none => .err "Could not decode image from URL content"
      | some (image, ienv) =>
        let r := extract_text_from_image image ienv
        .ok ⟨url, r.label, round2 r.conf, is_handwritten_image_label r.label,
             if r.text ≠ "" then r.text else "(No text found)"⟩

/-! Spec-side definitions: statements of claimed behaviour written from the
wording of the claims, to be compared against the source-derived functions above. -/

/-- The PDF-family decision table as the claim words it, on the final
confidence and the combined structural signal `texture ∨ irregularity>0.3`,
written band-by-band from below. -/
def pdf_label_table (c : ℚ) (texture irregular : Bool) : String :=
  if c < 40 then "handwritten_pdf"
  else if c < 60 then
    if texture || irregular then "low_quality_image_pdf" else "low_quality_printed_pdf"
  else if c < 80 then
    if texture || irregular then "mixed_image_pdf" else "image_pdf"
  else "image_pdf"

/-- The image-family decision table as the claim words it. -/
def image_label_table (c : ℚ) (texture irregular : Bool) : String :=
  if c < 40 then "handwritten_image"
  else if c < 60 then
    if texture || irregular then "low_quality_image_" else "low_quality_image"
  else if c < 80 then
    if texture || irregular then "image_pdf" else "printed_image"
  else "printed_image"

/-- The document confidence as claim C2 words it: the mean over ALL
rasterised pages of the per-page mean, a page without usable tokens
contributing `0.0`. -/
def spec_doc_conf (pages : List (RasterImage × TessOutput)) : ℚ :=
  mean_q (pages.map (fun p => pass_conf p.2.conf))

/-- The usable-token filter as claim C7 words it: keep exactly the numeric,
strictly positive per-token confidences. -/
def spec_usable_confs (conf : List String) : List Nat :=
  ((conf.filter (fun s => isdigitStr s)).map digitsToNat).filter (fun n => 0 < n)

/-- The irregularity score as claim C10 words it: mean over contours of area
exceeding 10 of `|1 − 4π·area/perimeter²|` with the bare squared perimeter
as denominator. -/
def spec_contour_irregularity (img : RasterImage) : ℚ :=
  let irr := img.contours.filterMap (fun c =>
    if c.area > 10 then some |1 - (4 * np_pi * c.area) / c.perimeter ^ 2| else none)
  if irr.isEmpty then 0 else mean_q irr

/-- C1: on the final confidence `c` and the structural signals, the two label
chains of the source assign exactly the labels of the claimed decision
tables, for the PDF family and the image family alike (the irregularity
signal being `contourIrregularity > 0.3`). -/
theorem c1_label_decision_tables (c : ℚ) (t : Bool) (k : ℚ) :
    classify_pdf c t k = pdf_label_table c t (decide (k > 3 / 10)) ∧
    classify_image c t k = image_label_table c t (decide (k > 3 / 10)) := by
  constructor <;>
  · simp only [classify_pdf, classify_image, pdf_label_table, image_label_table]
    split_ifs <;> simp_all <;> linarith

/-- C9: the texture flag holds exactly when `edgeDensity > 0.08` or
`laplacianVariance > 250`, with `edgeDensity` the edge-pixel count over the
total pixel count; both inequalities are strict, so the flag is false when
both quantities sit exactly on their thresholds. -/
theorem c9_texture_thresholds :
    (∀ img : RasterImage, detect_handwriting_texture img = true ↔
      (edge_density img > 8 / 100 ∨ img.lapVar > 250)) ∧
    (∀ img : RasterImage, edge_density img = 8 / 100 → img.lapVar = 250 →
      detect_handwriting_texture img = false) := by
  constructor
  · intro img
    simp [detect_handwriting_texture]
  · intro img h1 h2
    simp [detect_handwriting_texture, h1, h2]

/-- C9 witness: a 100×100 image with 800 edge pixels sits exactly at
`edgeDensity = 0.08`; with `laplacianVariance = 250` the flag is false. -/
theorem c9_texture_thresholds_witness :
    detect_handwriting_texture ⟨100, 100, 800, 250, []⟩ = false :=
  c9_texture_thresholds.2 ⟨100, 100, 800, 250, []⟩ (by norm_num [edge_density]) rfl

/-- C10 counterexample: for a single contour of area 100 and perimeter 10 the
source value uses the denominator `perimeter² + 1e-6`, so it differs from the
claimed `|1 − 4π·area/perimeter²|` mean. -/
theorem c10_counterexample :
    analyze_contour_irregularity ⟨1, 1, 0, 0, [⟨10, 100⟩]⟩ ≠
      spec_contour_irregularity ⟨1, 1, 0, 0, [⟨10, 100⟩]⟩ := by
  norm_num [analyze_contour_irregularity, spec_contour_irregularity, mean_q, np_pi, eps6,
    List.filterMap, List.isEmpty, List.sum_cons, List.sum_nil]
  rw [abs_of_pos (by norm_num), abs_of_pos (by norm_num)]
  norm_num

/-- C10 amended: the irregularity score is the mean, over exactly the
contours of area exceeding 10, of `|1 − 4π·area/(perimeter² + 1e-6)|`
(`0` when no contour qualifies), and it is always a finite rational `≥ 0`. -/
theorem c10_contour_irregularity (img : RasterImage) :
    0 ≤ analyze_contour_irregularity img ∧
    analyze_contour_irregularity img =
      (let irr := img.contours.filterMap (fun c =>
        if c.area > 10 then some |1 - (4 * np_pi * c.area) / (c.perimeter ^ 2 + eps6)|
        else none)
       if irr.isEmpty then 0 else mean_q irr) := by
  constructor
  · simp only [analyze_contour_irregularity]
    split_ifs with h1 h2
    · exact le_refl 0
    · exact le_refl 0
    · apply div_nonneg
      · apply List.sum_nonneg
        intro x hx
        obtain ⟨c, _, hc⟩ := List.mem_filterMap.mp hx
        by_cases ha : c.area > 10
        · rw [if_pos ha] at hc
          rw [← Option.some.inj hc]
          exact abs_nonneg _
        · simp [ha] at hc
      · exact Nat.cast_nonneg _
  · rw [analyze_contour_irregularity]
    by_cases h : img.contours.isEmpty
    · rw [if_pos h]
      have he : img.contours = [] := List.isEmpty_iff.mp h
      simp [he]
    · rw [if_neg h]

/-- The per-page confidence list of the PDF raster loop keeps exactly the
pages that have at least one usable token, each contributing its pass
confidence. -/
theorem page_confidences_eq (pages : List (RasterImage × TessOutput)) :
    pdf_page_confidences pages =
      (pages.filter (fun p => !(usable_confs p.2.conf).isEmpty)).map
        (fun p => pass_conf p.2.conf) := by
  induction pages with
  | nil => rfl
  | cons p ps ih =>
    by_cases h : (usable_confs p.2.conf).isEmpty
    · have he : usable_confs p.2.conf = [] := List.isEmpty_iff.mp h
      have h1 : pdf_page_confidences (p :: ps) = pdf_page_confidences ps := by
        simp [pdf_page_confidences, List.filterMap_cons, he]
      have h2 : (p :: ps).filter (fun q => !(usable_confs q.2.conf).isEmpty) =
          ps.filter (fun q => !(usable_confs q.2.conf).isEmpty) := by
        simp [List.filter_cons, h]
      rw [h1, h2, ih]
    · have he : ¬(usable_confs p.2.conf = []) := fun he0 => h (List.isEmpty_iff.mpr he0)
      have h1 : pdf_page_confidences (p :: ps) =
          pass_conf p.2.conf :: pdf_page_confidences ps := by
        simp [pdf_page_confidences, pass_conf, List.filterMap_cons, he]
      have h2 : (p :: ps).filter (fun q => !(usable_confs q.2.conf).isEmpty) =
          p :: ps.filter (fun q => !(usable_confs q.2.conf).isEmpty) := by
        simp [List.filter_cons, h]
      rw [h1, h2, List.map_cons, ih]

/-- C2 counterexample: a two-page document whose second page has no
positive-confidence token.  The source excludes that page and reports 80,
whereas the claimed mean over ALL pages (empty page contributing 0.0) is 40. -/
theorem c2_counterexample :
    pdf_pre_enhancement_conf
        [(⟨1, 1, 0, 0, []⟩, ⟨"a", ["80"]⟩), (⟨1, 1, 0, 0, []⟩, ⟨"b", []⟩)] = 80 ∧
    spec_doc_conf
        [(⟨1, 1, 0, 0, []⟩, ⟨"a", ["80"]⟩), (⟨1, 1, 0, 0, []⟩, ⟨"b", []⟩)] = 40 ∧
    (80 : ℚ) ≠ 40 := by
  have e1 : usable_confs ["80"] = [80] := rfl
  have e2 : usable_confs ([] : List String) = [] := rfl
  refine ⟨?_, ?_, by norm_num⟩
  · norm_num [pdf_pre_enhancement_conf, pdf_page_confidences, List.filterMap_cons, e1, e2, mean_q]
  · norm_num [spec_doc_conf, pass_conf, e1, e2, mean_q]

/-- C2 amended: the pre-enhancement document confidence is the mean of the
per-page mean confidences over exactly the pages having at least one usable
token — a page with no positive-confidence token is excluded from the mean,
not counted as 0.0 — and it is 0.0 when no page has a usable token. -/
theorem c2_doc_confidence_excludes_empty_pages (pages : List (RasterImage × TessOutput)) :
    pdf_pre_enhancement_conf pages =
      (let qs := (pages.filter (fun p => !(usable_confs p.2.conf).isEmpty)).map
          (fun p => pass_conf p.2.conf)
       if qs.isEmpty then 0 else mean_q qs) := by
  simp only [pdf_pre_enhancement_conf, page_confidences_eq]

/-- The combined token filter of the source agrees with filtering for numeric
tokens first and for positivity second. -/
theorem usable_confs_eq_spec (conf : List String) :
    usable_confs conf = spec_usable_confs conf := by
  rw [usable_confs, spec_usable_confs, List.filter_map, List.filter_filter]
  simp [Function.comp, Bool.and_comm]

/-- C7: the confidence of a pass is the mean of exactly the numeric, strictly
positive token confidences; a token failing that filter never changes the
result (it is excluded, not counted as zero); an empty usable set yields 0.0;
and a non-raising enhanced pass reports exactly this confidence together with
its stripped text. -/
theorem c7_pass_confidence :
    (∀ conf : List String,
      pass_conf conf =
        if spec_usable_confs conf = [] then 0
        else mean_q ((spec_usable_confs conf).map (fun n => (n : ℚ)))) ∧
    (∀ (conf : List String) (s : String),
      ¬(isdigitStr s = true ∧ 0 < digitsToNat s) →
        pass_conf (s :: conf) = pass_conf conf) ∧
    (∀ o : TessOutput,
      enhanced_handwritten_ocr (some o) = (py_strip o.text, pass_conf o.conf)) := by
  refine ⟨?_, ?_, fun o => rfl⟩
  · intro conf
    by_cases h : spec_usable_confs conf = []
    · simp [pass_conf, usable_confs_eq_spec, h]
    · simp [pass_conf, usable_confs_eq_spec, h]
  · intro conf s h
    have hu : usable_confs (s :: conf) = usable_confs conf := by
      simp only [usable_confs, List.filter_cons]
      rw [if_neg ?_]
      intro hx
      exact h (by simpa [Bool.and_eq_true, decide_eq_true_eq] using hx)
    simp only [pass_conf, hu]

/-- C7 witness: the non-numeric token `"-1"` is excluded rather than averaged
in, and a pass with no usable tokens yields confidence 0. -/
theorem c7_pass_confidence_witness :
    pass_conf ["-1", "96"] = pass_conf ["96"] ∧ pass_conf [] = 0 := by
  constructor
  · exact c7_pass_confidence.2.1 ["96"] "-1" (by decide)
  · have h := c7_pass_confidence.1 []
    simpa [spec_usable_confs] using h

/-- C8: whenever the stripped length of the embedded text layer exceeds 50, the
PDF pipeline returns that stripped text with confidence 95.0 and label
`text_pdf`; the result is independent of every raster-stage component of the
environment (pages, their recognition outputs, the enhanced pass, even a
raster stage that would fail), and the enhanced pass does not run. -/
theorem c8_text_pdf_fast_path (env : PdfEnv) (ts : List String)
    (h1 : env.textLayer = some ts)
    (h2 : (py_strip (String.join ts)).length > 50) :
    extract_text_from_pdf env = ⟨py_strip (String.join ts), 95, "text_pdf", false⟩ := by
  simp only [extract_text_from_pdf, h1]
  rw [if_pos h2]

/-- C8 witness: a PDF whose text layer is 60 characters long takes the fast
path even though the raster stage of the environment would fail. -/
theorem c8_text_pdf_fast_path_witness :
    extract_text_from_pdf
        ⟨some ["aaaaaaaaaaaaaaaaaaaaaaaaaaaaaaaaaaaaaaaaaaaaaaaaaaaaaaaaaaaa"],
         false, [], none⟩ =
      ⟨"aaaaaaaaaaaaaaaaaaaaaaaaaaaaaaaaaaaaaaaaaaaaaaaaaaaaaaaaaaaa",
       95, "text_pdf", false⟩ := by
  have h := c8_text_pdf_fast_path
    ⟨some ["aaaaaaaaaaaaaaaaaaaaaaaaaaaaaaaaaaaaaaaaaaaaaaaaaaaaaaaaaaaa"],
     false, [], none⟩
    ["aaaaaaaaaaaaaaaaaaaaaaaaaaaaaaaaaaaaaaaaaaaaaaaaaaaaaaaaaaaa"]
    rfl (by decide)
  exact h

/-- C3: the enhanced pass runs exactly under the family-specific trigger —
for images when the standard confidence is below 60 or texture is detected
(irregularity plays no part), and for a PDF on the raster path when texture
is detected, the document confidence is below 60, or the contour
irregularity exceeds 0.3. -/
theorem c3_enhanced_pass_trigger :
    (∀ (img : RasterImage) (env : ImageOcrEnv),
      (extract_text_from_image img env).ranEnhanced = true ↔
        (pass_conf env.standard.conf < 60 ∨ detect_handwriting_texture img = true)) ∧
    (∀ (env : PdfEnv) (ts : List String) (p : RasterImage × TessOutput)
        (rest : List (RasterImage × TessOutput)),
      env.textLayer = some ts → (py_strip (String.join ts)).length ≤ 50 →
      env.rasterOk = true → env.pages = p :: rest →
      ((extract_text_from_pdf env).ranEnhanced = true ↔
        (detect_handwriting_texture p.1 = true ∨ pdf_pre_enhancement_conf (p :: rest) < 60 ∨
          analyze_contour_irregularity p.1 > 3 / 10))) := by
  constructor
  · intro img env
    obtain ⟨std, er⟩ := env
    by_cases h : pass_conf std.conf < 60 ∨ detect_handwriting_texture img = true
    · simp only [extract_text_from_image]
      rw [if_pos h]
      split_ifs <;> simpa using h
    · simp only [extract_text_from_image]
      rw [if_neg h]
      simpa using h
  · intro env ts p rest h1 h2 h3 h4
    obtain ⟨tl, rok, pgs, er⟩ := env
    simp only at h1 h3 h4
    subst h1; subst h3; subst h4
    simp only [extract_text_from_pdf]
    rw [if_neg (by omega : ¬((py_strip (String.join ts)).length > 50)),
      if_neg (by simp : ¬(true = false))]
    by_cases h : detect_handwriting_texture p.1 = true ∨
        pdf_pre_enhancement_conf (p :: rest) < 60 ∨
        analyze_contour_irregularity p.1 > 3 / 10
    · rw [if_pos h]
      split_ifs <;> simpa using h
    · rw [if_neg h]
      simpa using h

/-- C3 witness: a one-page scanned PDF with standard confidence 50 triggers
the enhanced pass, and an image with confidence 50 triggers it too. -/
theorem c3_enhanced_pass_trigger_witness :
    (extract_text_from_pdf
        ⟨some [""], true, [(⟨1, 1, 0, 0, []⟩, ⟨"t", ["50"]⟩)], none⟩).ranEnhanced = true ∧
    (extract_text_from_image ⟨1, 1, 0, 0, []⟩ ⟨⟨"t", ["50"]⟩, none⟩).ranEnhanced = true := by
  constructor
  · exact (c3_enhanced_pass_trigger.2
      ⟨some [""], true, [(⟨1, 1, 0, 0, []⟩, ⟨"t", ["50"]⟩)], none⟩
      [""] (⟨1, 1, 0, 0, []⟩, ⟨"t", ["50"]⟩) [] rfl (by decide) rfl rfl).mpr
      (Or.inr (Or.inl (by
        norm_num [pdf_pre_enhancement_conf, pdf_page_confidences, List.filterMap_cons,
          mean_q, show usable_confs ["50"] = [50] from rfl])))
  · exact (c3_enhanced_pass_trigger.1 ⟨1, 1, 0, 0, []⟩ ⟨⟨"t", ["50"]⟩, none⟩).mpr
      (Or.inl (by
        norm_num [mean_q, pass_conf, show usable_confs ["50"] = [50] from rfl]))

/-- C4 counterexample: an image with standard confidence 50 triggers the
enhanced pass, but the enhanced pass returns empty text (here: it raised), so
the source keeps the standard confidence 50 and the standard text unchanged —
not the two-pass mean 25 and not the newline concatenation. -/
theorem c4_counterexample :
    extract_text_from_image ⟨1, 1, 0, 0, []⟩ ⟨⟨"abc ", ["50"]⟩, none⟩ =
      ⟨"abc", 50, "low_quality_image", true⟩ ∧
    (50 : ℚ) ≠ (pass_conf ["50"] + (enhanced_handwritten_ocr none).2) / 2 ∧
    ("abc" : String) ≠ "abc" ++ "\n" ++ (enhanced_handwritten_ocr none).1 := by
  have hconf : pass_conf ["50"] = 50 := by
    norm_num [pass_conf, mean_q, show usable_confs ["50"] = [50] from rfl]
  refine ⟨?_, by rw [hconf]; norm_num [enhanced_handwritten_ocr], by decide⟩
  have htex : detect_handwriting_texture ⟨1, 1, 0, 0, []⟩ = false := by
    norm_num [detect_handwriting_texture, edge_density]
  have hcont : analyze_contour_irregularity ⟨1, 1, 0, 0, []⟩ = 0 := rfl
  simp only [extract_text_from_image, enhanced_handwritten_ocr, hconf, htex, hcont]
  rw [if_pos (Or.inl (by norm_num)), if_neg (by decide)]
  have hlab : classify_image 50 false 0 = "low_quality_image" := by
    norm_num [classify_image]
  rw [hlab]
  rfl

/-- C4 amended: whenever the enhanced pass is triggered AND returns non-empty
(stripped) text, the final confidence is the unweighted mean of the standard
and enhanced confidences, and the final text is the standard text, a newline,
then the enhanced text — for the image branch and the PDF raster branch
alike.  (When the enhanced text is empty, the standard results are kept
unchanged, as the counterexample shows.) -/
theorem c4_two_pass_merge :
    (∀ (img : RasterImage) (env : ImageOcrEnv) (o : TessOutput),
      env.enhancedRun = some o → py_strip o.text ≠ "" →
      (pass_conf env.standard.conf < 60 ∨ detect_handwriting_texture img = true) →
      (extract_text_from_image img env).conf =
          (pass_conf env.standard.conf + pass_conf o.conf) / 2 ∧
        (extract_text_from_image img env).text =
          py_strip env.standard.text ++ "\n" ++ py_strip o.text) ∧
    (∀ (env : PdfEnv) (ts : List String) (p : RasterImage × TessOutput)
        (rest : List (RasterImage × TessOutput)) (o : TessOutput),
      env.textLayer = some ts → (py_strip (String.join ts)).length ≤ 50 →
      env.rasterOk = true → env.pages = p :: rest → env.enhancedRun = some o →
      py_strip o.text ≠ "" →
      (detect_handwriting_texture p.1 = true ∨ pdf_pre_enhancement_conf (p :: rest) < 60 ∨
        analyze_contour_irregularity p.1 > 3 / 10) →
      (extract_text_from_pdf env).conf =
          (pdf_pre_enhancement_conf (p :: rest) + pass_conf o.conf) / 2 ∧
        (extract_text_from_pdf env).text =
          py_strip (String.intercalate "\n" ((p :: rest).map (fun q => q.2.text))) ++ "\n" ++
            py_strip o.text) := by
  constructor
  · intro img env o h1 h2 h3
    obtain ⟨std, er⟩ := env
    simp only at h1 h3
    subst h1
    simp only [extract_text_from_image, enhanced_handwritten_ocr]
    rw [if_pos h3, if_pos h2]
    exact ⟨rfl, rfl⟩
  · intro env ts p rest o h1 h2 h3 h4 h5 h6 h7
    obtain ⟨tl, rok, pgs, er⟩ := env
    simp only at h1 h3 h4 h5
    subst h1; subst h3; subst h4; subst h5
    simp only [extract_text_from_pdf, enhanced_handwritten_ocr]
    rw [if_neg (by omega : ¬((py_strip (String.join ts)).length > 50)),
      if_neg (by simp : ¬(true = false)), if_pos h7, if_pos h6]
    exact ⟨rfl, rfl⟩

/-- C4 witness: with standard confidence 50 and an enhanced pass returning
text `"xy"` at confidence 80, both branches report the mean and the
concatenation. -/
theorem c4_two_pass_merge_witness :
    ((extract_text_from_image ⟨1, 1, 0, 0, []⟩
        ⟨⟨"t", ["50"]⟩, some ⟨"xy", ["80"]⟩⟩).conf =
      (pass_conf ["50"] + pass_conf ["80"]) / 2 ∧
    (extract_text_from_image ⟨1, 1, 0, 0, []⟩
        ⟨⟨"t", ["50"]⟩, some ⟨"xy", ["80"]⟩⟩).text = "t" ++ "\n" ++ "xy") ∧
    ((extract_text_from_pdf
        ⟨some [""], true, [(⟨1, 1, 0, 0, []⟩, ⟨"t", ["50"]⟩)], some ⟨"xy", ["80"]⟩⟩).conf =
      (pdf_pre_enhancement_conf [(⟨1, 1, 0, 0, []⟩, ⟨"t", ["50"]⟩)] + pass_conf ["80"]) / 2 ∧
    (extract_text_from_pdf
        ⟨some [""], true, [(⟨1, 1, 0, 0, []⟩, ⟨"t", ["50"]⟩)], some ⟨"xy", ["80"]⟩⟩).text =
      "t" ++ "\n" ++ "xy") := by
  constructor
  · exact c4_two_pass_merge.1 ⟨1, 1, 0, 0, []⟩ ⟨⟨"t", ["50"]⟩, some ⟨"xy", ["80"]⟩⟩
      ⟨"xy", ["80"]⟩ rfl (by decide)
      (Or.inl (by norm_num [mean_q, pass_conf, show usable_confs ["50"] = [50] from rfl]))
  · exact c4_two_pass_merge.2
      ⟨some [""], true, [(⟨1, 1, 0, 0, []⟩, ⟨"t", ["50"]⟩)], some ⟨"xy", ["80"]⟩⟩
      [""] (⟨1, 1, 0, 0, []⟩, ⟨"t", ["50"]⟩) [] ⟨"xy", ["80"]⟩
      rfl (by decide) rfl rfl rfl (by decide)
      (Or.inr (Or.inl (by
        norm_num [pdf_pre_enhancement_conf, pdf_page_confidences, List.filterMap_cons,
          mean_q, show usable_confs ["50"] = [50] from rfl])))

/-- C5 counterexample: a failure inside the PDF extraction stage (here the
embedded-text reader raising) does NOT surface to the caller as an error
value — `process_from_url` returns a success-shaped response carrying the
sentinel text, label `error_pdf` and confidence 0. -/
theorem c5_counterexample :
    process_from_url "doc.pdf" ⟨none, ⟨none, true, [], none⟩, none⟩ =
      .ok ⟨"doc.pdf", "error_pdf", 0, false, "(Error extracting text)"⟩ := by
  have h0 : round2 0 = 0 := by norm_num [round2]
  simp only [process_from_url, extract_text_from_pdf, pdf_error_result, h0]
  rfl

/-- C5 amended: failures surface to the caller as the error value carrying
the original cause message — a failed download propagates its message, an
undecodable image yields the decode-failure message — EXCEPT that any failure
inside the PDF extraction stage is locally converted into a success-shaped
response with the sentinel text `"(Error extracting text)"`, confidence 0 and
label `error_pdf`. -/
theorem c5_failure_surfacing :
    (∀ (url : String) (env : UrlRunEnv) (msg : String),
      env.fetch = some msg → process_from_url url env = .err msg) ∧
    (∀ (url : String) (env : UrlRunEnv),
      env.fetch = none → is_pdf_url url = false → env.imageDecode = none →
      process_from_url url env = .err "Could not decode image from URL content") ∧
    (∀ (url : String) (env : UrlRunEnv),
      env.fetch = none → is_pdf_url url = true →
      extract_text_from_pdf env.pdfEnv = pdf_error_result →
      process_from_url url env =
        .ok ⟨url, "error_pdf", 0, false, "(Error extracting text)"⟩) := by
  refine ⟨?_, ?_, ?_⟩
  · intro url env msg h
    obtain ⟨f, pe, idec⟩ := env
    simp only at h
    subst h
    rfl
  · intro url env h1 h2 h3
    obtain ⟨f, pe, idec⟩ := env
    simp only at h1 h3
    subst h1; subst h3
    simp only [process_from_url]
    rw [if_neg (by simp [h2])]
  · intro url env h1 h2 h3
    obtain ⟨f, pe, idec⟩ := env
    simp only at h1 h3
    subst h1
    have h0 : round2 0 = 0 := by norm_num [round2]
    simp only [process_from_url]
    rw [if_pos h2]
    simp only [h3, pdf_error_result, h0]
    rfl

/-- C5 witness: a failed download surfaces its message, an undecodable image
surfaces the decode message, and a failed PDF stage yields the sentinel
success-shaped response. -/
theorem c5_failure_surfacing_witness :
    process_from_url "x.png" ⟨some "boom", ⟨none, true, [], none⟩, none⟩ = .err "boom" ∧
    process_from_url "x.png" ⟨none, ⟨none, true, [], none⟩, none⟩ =
      .err "Could not decode image from URL content" ∧
    process_from_url "x.pdf" ⟨none, ⟨none, true, [], none⟩, none⟩ =
      .ok ⟨"x.pdf", "error_pdf", 0, false, "(Error extracting text)"⟩ :=
  ⟨c5_failure_surfacing.1 "x.png" ⟨some "boom", ⟨none, true, [], none⟩, none⟩ "boom" rfl,
   c5_failure_surfacing.2.1 "x.png" ⟨none, ⟨none, true, [], none⟩, none⟩ rfl (by decide) rfl,
   c5_failure_surfacing.2.2 "x.pdf" ⟨none, ⟨none, true, [], none⟩, none⟩ rfl (by decide) rfl⟩

/-- C6 counterexample: the label `image_pdf` is produced by BOTH families —
a scanned PDF at confidence 85 carries it with `is_handwritten = true`, while
an image at confidence 70 with texture carries the same label with
`is_handwritten = false` — so the flag is not a function of the label alone. -/
theorem c6_counterexample :
    process_from_url "a.pdf"
        ⟨none, ⟨some [""], true, [(⟨1, 1, 0, 0, []⟩, ⟨"hello", ["85"]⟩)], none⟩, none⟩ =
      .ok ⟨"a.pdf", "image_pdf", 85, true, "hello"⟩ ∧
    process_from_url "b.png"
        ⟨none, ⟨none, true, [], none⟩, some (⟨1, 1, 1, 0, []⟩, ⟨⟨"hi ", ["70"]⟩, none⟩)⟩ =
      .ok ⟨"b.png", "image_pdf", 70, false, "hi"⟩ := by
  constructor
  · have hconf : pdf_pre_enhancement_conf [(⟨1, 1, 0, 0, []⟩, ⟨"hello", ["85"]⟩)] = 85 := by
      norm_num [pdf_pre_enhancement_conf, pdf_page_confidences, List.filterMap_cons,
        mean_q, show usable_confs ["85"] = [85] from rfl]
    have htex : detect_handwriting_texture ⟨1, 1, 0, 0, []⟩ = false := by
      norm_num [detect_handwriting_texture, edge_density]
    have hcont : analyze_contour_irregularity ⟨1, 1, 0, 0, []⟩ = 0 := rfl
    have hx : extract_text_from_pdf
        ⟨some [""], true, [(⟨1, 1, 0, 0, []⟩, ⟨"hello", ["85"]⟩)], none⟩ =
        ⟨"hello", 85, "image_pdf", false⟩ := by
      simp only [extract_text_from_pdf, hconf, htex, hcont]
      rw [if_neg (by decide : ¬((py_strip (String.join [""])).length > 50)),
        if_neg (by simp : ¬(true = false)),
        if_neg (by norm_num : ¬(false = true ∨ (85 : ℚ) < 60 ∨ (0 : ℚ) > 3 / 10))]
      have hlab : classify_pdf 85 false 0 = "image_pdf" := by norm_num [classify_pdf]
      rw [hlab]
      rfl
    have h85 : round2 85 = 85 := by norm_num [round2]
    simp only [process_from_url, hx, h85]
    rfl
  · have hconf2 : pass_conf ["70"] = 70 := by
      norm_num [pass_conf, mean_q, show usable_confs ["70"] = [70] from rfl]
    have htex2 : detect_handwriting_texture ⟨1, 1, 1, 0, []⟩ = true := by
      norm_num [detect_handwriting_texture, edge_density]
    have hcont2 : analyze_contour_irregularity ⟨1, 1, 1, 0, []⟩ = 0 := rfl
    have hy : extract_text_from_image ⟨1, 1, 1, 0, []⟩ ⟨⟨"hi ", ["70"]⟩, none⟩ =
        ⟨"hi", 70, "image_pdf", true⟩ := by
      simp only [extract_text_from_image, enhanced_handwritten_ocr, hconf2, htex2, hcont2]
      rw [if_pos (Or.inr trivial : (70 : ℚ) < 60 ∨ True), if_neg (by decide)]
      have hlab2 : classify_image 70 true 0 = "image_pdf" := by norm_num [classify_image]
      rw [hlab2]
      rfl
    have h70 : round2 70 = 70 := by norm_num [round2]
    simp only [process_from_url, hy, h70]
    rfl

/-- C6 amended: the handwritten flag is a pure function of the pair
(container family, label): for a PDF-family response it is
`label ∈ {handwritten_pdf, image_pdf}`, for an image-family response it is
`label ∈ {handwritten_image, mixed_handwritten_image}`; re-deriving the flag
from the family and label always matches the stored flag. -/
theorem c6_flag_from_family_and_label :
    ∀ (url : String) (env : UrlRunEnv) (r : ExtractionResponse),
      process_from_url url env = .ok r →
      r.is_handwritten =
        (if is_pdf_url url then is_handwritten_pdf_label r.file_type
         else is_handwritten_image_label r.file_type) := by
  intro url env r h
  obtain ⟨f, pe, idec⟩ := env
  cases f with
  | some msg => simp [process_from_url] at h
  | none =>
    simp only [process_from_url] at h
    by_cases hp : is_pdf_url url = true
    · rw [if_pos hp] at h
      have hr := ProcessResult.ok.inj h
      subst hr
      rw [if_pos hp]
    · rw [if_neg hp] at h
      cases idec with
      | none => simp at h
      | some pair =>
        obtain ⟨img, ienv⟩ := pair
        simp only at h
        have hr := ProcessResult.ok.inj h
        subst hr
        rw [if_neg hp]

/-- C6 witness: re-deriving the flag for a PDF-family response with label
`error_pdf` matches its stored flag. -/
theorem c6_flag_from_family_and_label_witness :
    (⟨"x.pdf", "error_pdf", 0, false, "(Error extracting text)"⟩ :
        ExtractionResponse).is_handwritten =
      (if is_pdf_url "x.pdf" then is_handwritten_pdf_label "error_pdf"
       else is_handwritten_image_label "error_pdf") := by
  refine c6_flag_from_family_and_label "x.pdf" ⟨none, ⟨none, true, [], none⟩, none⟩ _ ?_
  have h0 : round2 0 = 0 := by norm_num [round2]
  simp only [process_from_url, extract_text_from_pdf, pdf_error_result, h0]
  rfl
